import Mathlib

set_option maxHeartbeats 1000000

/-! Shallow embedding of src/src/services/cupti/Cupti.cpp, the Caliper CUPTI
service.  Calls into the vendor library (CUPTI) and into the host tracing
framework (Caliper) are modelled as an explicit trace of actions; the vendor
API's fallible queries are modelled as Option- and result-valued functions
supplied through a `CuptiApi` record.  Global counters become an explicit
`Counters` record threaded through the handlers. -/

namespace Cupti

/-- Caliper value types used by this service (CALI_TYPE_STRING / _UINT / _BOOL). -/
inductive CaliType
  | STRING
  | UINT
  | BOOL
  deriving DecidableEq

/-- Attribute property used at creation (CALI_ATTR_NESTED / _DEFAULT / _SKIP_EVENTS). -/
inductive AttrProp
  | NESTED
  | DEFAULT
  | SKIP_EVENTS
  deriving DecidableEq

/-- A Caliper attribute handle, identified by its name, type and property flags. -/
structure Attribute where
  name : String
  type : CaliType
  prop : AttrProp
  deriving DecidableEq

/-- A Caliper Variant: a tagged value.  The string form carries the explicit
length argument given at the construction site (`Variant(CALI_TYPE_STRING, s, len)`);
the uint form models `Variant(static_cast<uint64_t>(x))`. -/
inductive Variant
  | str (s : String) (len : Nat)
  | uint (n : Nat)
  deriving DecidableEq

/-- C `strlen` on the embedded (ASCII) strings. -/
def strlen (s : String) : Nat := s.length

/-- CUpti_CallbackDomain values used by the service, plus `other` for any
unrecognized domain value hitting the dispatch default. -/
inductive CUpti_CallbackDomain
  | RUNTIME_API
  | DRIVER_API
  | RESOURCE
  | SYNCHRONIZE
  | NVTX
  | INVALID
  | other (n : Nat)
  deriving DecidableEq

/-- CUptiResult: success or a vendor error code. -/
inductive CUptiResult
  | success
  | error (n : Nat)
  deriving DecidableEq

/-- CUpti_CallbackIdResource values handled by `handle_resource`;
`OTHER` covers the switch default. -/
inductive CUpti_CallbackIdResource
  | CONTEXT_CREATED
  | CONTEXT_DESTROY_STARTING
  | STREAM_CREATED
  | STREAM_DESTROY_STARTING
  | OTHER (n : Nat)
  deriving DecidableEq

/-- CUpti_CallbackIdSync values handled by `handle_synchronize`;
`OTHER` covers the switch default. -/
inductive CUpti_CallbackIdSync
  | STREAM_SYNCHRONIZED
  | CONTEXT_SYNCHRONIZED
  | OTHER (n : Nat)
  deriving DecidableEq

/-- NVTX callback ids handled by `handle_nvtx`; `other` covers the switch default. -/
inductive CUpti_NvtxCbid
  | rangePushA
  | rangePushEx
  | rangePop
  | domainRangePushEx
  | domainRangePop
  | other (n : Nat)
  deriving DecidableEq

/-- CUpti_ApiCallbackSite (CUPTI_API_ENTER / CUPTI_API_EXIT). -/
inductive CallbackSite
  | ENTER
  | EXIT
  deriving DecidableEq

/-- CUpti_ResourceData: the fields of the payload the service reads
(`context` and `resourceHandle.stream`).  Opaque vendor handles are Nat. -/
structure CUpti_ResourceData where
  context : Nat
  stream : Nat
  deriving DecidableEq

/-- CUpti_SynchronizeData: the fields the service reads. -/
structure CUpti_SynchronizeData where
  context : Nat
  stream : Nat
  deriving DecidableEq

/-- CUpti_CallbackData: the fields `handle_callback` reads.  A null
`symbolName` pointer is `none`. -/
structure CUpti_CallbackData where
  callbackSite : CallbackSite
  symbolName : Option String
  functionName : String
  deriving DecidableEq

/-- CUpti_NvtxData: the message strings reachable from `functionParams` for the
three push-style payload shapes (`nvtxRangePushA_params.message`,
`nvtxRangePushEx_params.eventAttrib->message.ascii`,
`nvtxDomainRangePushEx_params.core.eventAttrib->message.ascii`). -/
structure CUpti_NvtxData where
  message : String
  exMessage : String
  domainExMessage : String
  deriving DecidableEq

/-- The CuptiServiceInfo global: attribute handles plus the two record flags. -/
structure CuptiServiceInfo where
  runtime_attr : Attribute
  driver_attr : Attribute
  resource_attr : Attribute
  sync_attr : Attribute
  nvtx_range_attr : Attribute
  context_attr : Attribute
  symbol_attr : Attribute
  device_attr : Attribute
  stream_attr : Attribute
  record_context : Bool
  record_symbol : Bool
  deriving DecidableEq

/-- The five global callback counters. -/
structure Counters where
  num_cb : Nat
  num_api_cb : Nat
  num_resource_cb : Nat
  num_sync_cb : Nat
  num_nvtx_cb : Nat
  deriving DecidableEq

/-- The vendor API surface the service calls, modelled as pure functions.
Id resolution (`cuptiGetDeviceId` / `cuptiGetContextId` / `cuptiGetStreamId`)
returns `none` on a non-CUPTI_SUCCESS result; `getResultString` models
`cuptiGetResultString`'s decoding of an error into a message. -/
structure CuptiApi where
  getDeviceId : Nat → Option Nat
  getContextId : Nat → Option Nat
  getStreamId : Nat → Nat → Option Nat
  subscribeResult : CUptiResult
  enableDomainResult : CUpti_CallbackDomain → CUptiResult
  getResultString : CUptiResult → String

/-- The configuration values read from the `cupti` ConfigSet
(`sample_events` is read by the external sampling engine only). -/
structure ConfigValues where
  callback_domains : String
  record_symbol : Bool
  record_context : Bool
  sample_event_id : Nat
  deriving DecidableEq

/-- One observable effect of the service: a call into the host framework
(set/begin/end/push_snapshot/lifecycle connect), into the sampling controller
(enable/disable/setup), into the vendor library (subscribe/enable domain), or
a log line. -/
inductive Action
  | enableSampling (ctx : Nat)
  | disableSampling (ctx : Nat)
  | pushSnapshot (entries : List (Attribute × Variant))
  | setAttr (a : Attribute) (v : Variant)
  | beginAttr (a : Attribute) (v : Variant)
  | endAttr (a : Attribute)
  | enableDomain (d : CUpti_CallbackDomain)
  | cuptiSubscribe
  | samplingSetup (event_id : Nat)
  | setRecordFlags (record_context record_symbol : Bool)
  | connectSnapshot
  | connectPostInit
  | connectFinish
  | logCuptiError (func : String) (errstr : String)
  | logWarn (msg : String)
  | logInfo (msg : String)
  | logUnknownDomain
  deriving DecidableEq

/-- Counter bump `++num_api_cb`. -/
def bump_api (cnt : Counters) : Counters := { cnt with num_api_cb := cnt.num_api_cb + 1 }

/-- Counter bump `++num_resource_cb`. -/
def bump_resource (cnt : Counters) : Counters :=
  { cnt with num_resource_cb := cnt.num_resource_cb + 1 }

/-- Counter bump `++num_sync_cb`. -/
def bump_sync (cnt : Counters) : Counters := { cnt with num_sync_cb := cnt.num_sync_cb + 1 }

/-- Counter bump `++num_nvtx_cb`. -/
def bump_nvtx (cnt : Counters) : Counters := { cnt with num_nvtx_cb := cnt.num_nvtx_cb + 1 }

/-- Counter bump `++num_cb`. -/
def bump_total (cnt : Counters) : Counters := { cnt with num_cb := cnt.num_cb + 1 }

/-- handle_stream_event: resolve device, context and stream ids in that order,
returning silently (no record, no log) on the first failure; on success push a
single 4-pair snapshot {device, context, stream, name}. -/
def handle_stream_event (api : CuptiApi) (info : CuptiServiceInfo) (context stream : Nat)
    (name_attr : Attribute) (v_name : Variant) : List Action :=
  match api.getDeviceId context with
  | none => []
  | some device_id =>
    match api.getContextId context with
    | none => []
    | some context_id =>
      match api.getStreamId context stream with
      | none => []
      | some stream_id =>
        [Action.pushSnapshot
          [(info.device_attr, Variant.uint device_id),
           (info.context_attr, Variant.uint context_id),
           (info.stream_attr, Variant.uint stream_id),
           (name_attr, v_name)]]

/-- handle_context_event: resolve device and context ids, returning silently on
failure; on success push a single 3-pair snapshot {device, context, name}. -/
def handle_context_event (api : CuptiApi) (info : CuptiServiceInfo) (context : Nat)
    (name_attr : Attribute) (v_name : Variant) : List Action :=
  match api.getDeviceId context with
  | none => []
  | some device_id =>
    match api.getContextId context with
    | none => []
    | some context_id =>
      [Action.pushSnapshot
        [(info.device_attr, Variant.uint device_id),
         (info.context_attr, Variant.uint context_id),
         (name_attr, v_name)]]

/-- handle_resource: bump num_resource_cb, then dispatch on the resource
callback id.  `sampling_enabled` is the value of `event_sampling.is_enabled()`. -/
def handle_resource (api : CuptiApi) (info : CuptiServiceInfo) (sampling_enabled : Bool)
    (cbid : CUpti_CallbackIdResource) (cbInfo : CUpti_ResourceData) (cnt : Counters) :
    Counters × List Action :=
  match cbid with
  | CUpti_CallbackIdResource.CONTEXT_CREATED =>
      (bump_resource cnt,
        (if sampling_enabled then [Action.enableSampling cbInfo.context] else []) ++
        handle_context_event api info cbInfo.context info.resource_attr
          (Variant.str "create_context" 15))
  | CUpti_CallbackIdResource.CONTEXT_DESTROY_STARTING =>
      (bump_resource cnt,
        (if sampling_enabled then [Action.disableSampling cbInfo.context] else []) ++
        handle_context_event api info cbInfo.context info.resource_attr
          (Variant.str "destroy_context" 16))
  | CUpti_CallbackIdResource.STREAM_CREATED =>
      (bump_resource cnt,
        handle_stream_event api info cbInfo.context cbInfo.stream info.resource_attr
          (Variant.str "create_stream" 14))
  | CUpti_CallbackIdResource.STREAM_DESTROY_STARTING =>
      (bump_resource cnt,
        handle_stream_event api info cbInfo.context cbInfo.stream info.resource_attr
          (Variant.str "destroy_stream" 15))
  | CUpti_CallbackIdResource.OTHER _ => (bump_resource cnt, [])

/-- handle_synchronize: bump num_sync_cb, then dispatch on the sync callback id. -/
def handle_synchronize (api : CuptiApi) (info : CuptiServiceInfo)
    (cbid : CUpti_CallbackIdSync) (cbInfo : CUpti_SynchronizeData) (cnt : Counters) :
    Counters × List Action :=
  match cbid with
  | CUpti_CallbackIdSync.STREAM_SYNCHRONIZED =>
      (bump_sync cnt,
        handle_stream_event api info cbInfo.context cbInfo.stream info.sync_attr
          (Variant.str "stream" 7))
  | CUpti_CallbackIdSync.CONTEXT_SYNCHRONIZED =>
      (bump_sync cnt,
        handle_context_event api info cbInfo.context info.sync_attr
          (Variant.str "context" 8))
  | CUpti_CallbackIdSync.OTHER _ => (bump_sync cnt, [])

/-- handle_callback (runtime/driver API domains): bump num_api_cb; on ENTER,
optionally set the symbol attribute then begin `attr` with the function name;
on EXIT, end `attr` then optionally end the symbol attribute.  The cbid
argument is unused, as in the source. -/
def handle_callback (info : CuptiServiceInfo) (_cbid : Nat) (cbInfo : CUpti_CallbackData)
    (attr : Attribute) (cnt : Counters) : Counters × List Action :=
  match cbInfo.callbackSite with
  | CallbackSite.ENTER =>
      (bump_api cnt,
        (if info.record_symbol then
           match cbInfo.symbolName with
           | some s => [Action.setAttr info.symbol_attr (Variant.str s (strlen s))]
           | none => []
         else []) ++
        [Action.beginAttr attr (Variant.str cbInfo.functionName (strlen cbInfo.functionName))])
  | CallbackSite.EXIT =>
      (bump_api cnt,
        Action.endAttr attr ::
        (if info.record_symbol then
           match cbInfo.symbolName with
           | some _ => [Action.endAttr info.symbol_attr]
           | none => []
         else []))

/-- handle_nvtx: bump num_nvtx_cb, then dispatch on the NVTX callback id.
All push forms begin the nvtx range attribute with length `strlen(msg)+1`;
both pop forms end it; unknown ids fall through to the empty default. -/
def handle_nvtx (info : CuptiServiceInfo) (cbid : CUpti_NvtxCbid)
    (cbInfo : CUpti_NvtxData) (cnt : Counters) : Counters × List Action :=
  match cbid with
  | CUpti_NvtxCbid.rangePushA =>
      (bump_nvtx cnt,
        [Action.beginAttr info.nvtx_range_attr
          (Variant.str cbInfo.message (strlen cbInfo.message + 1))])
  | CUpti_NvtxCbid.rangePushEx =>
      (bump_nvtx cnt,
        [Action.beginAttr info.nvtx_range_attr
          (Variant.str cbInfo.exMessage (strlen cbInfo.exMessage + 1))])
  | CUpti_NvtxCbid.rangePop =>
      (bump_nvtx cnt, [Action.endAttr info.nvtx_range_attr])
  | CUpti_NvtxCbid.domainRangePushEx =>
      (bump_nvtx cnt,
        [Action.beginAttr info.nvtx_range_attr
          (Variant.str cbInfo.domainExMessage (strlen cbInfo.domainExMessage + 1))])
  | CUpti_NvtxCbid.domainRangePop =>
      (bump_nvtx cnt, [Action.endAttr info.nvtx_range_attr])
  | CUpti_NvtxCbid.other _ => (bump_nvtx cnt, [])

/-- The pre-cast payload delivered with a callback.  In C the `void*` payload
is cast according to the domain; here the payload carries its decoded shape,
and the router matches domain and shape together (a shape that does not match
the domain cannot occur at runtime and falls to the logging default). -/
inductive CallbackArgs
  | resource (cbid : CUpti_CallbackIdResource) (data : CUpti_ResourceData)
  | sync (cbid : CUpti_CallbackIdSync) (data : CUpti_SynchronizeData)
  | api (cbid : Nat) (data : CUpti_CallbackData)
  | nvtx (cbid : CUpti_NvtxCbid) (data : CUpti_NvtxData)
  deriving DecidableEq

/-- cupti_callback: the single router.  Bump num_cb, then dispatch by domain;
an unrecognized domain is logged and otherwise ignored. -/
def cupti_callback (api : CuptiApi) (info : CuptiServiceInfo) (sampling_enabled : Bool)
    (domain : CUpti_CallbackDomain) (cb : CallbackArgs) (cnt : Counters) :
    Counters × List Action :=
  match domain, cb with
  | CUpti_CallbackDomain.RESOURCE, CallbackArgs.resource cbid d =>
      handle_resource api info sampling_enabled cbid d (bump_total cnt)
  | CUpti_CallbackDomain.SYNCHRONIZE, CallbackArgs.sync cbid d =>
      handle_synchronize api info cbid d (bump_total cnt)
  | CUpti_CallbackDomain.RUNTIME_API, CallbackArgs.api cbid d =>
      handle_callback info cbid d info.runtime_attr (bump_total cnt)
  | CUpti_CallbackDomain.DRIVER_API, CallbackArgs.api cbid d =>
      handle_callback info cbid d info.driver_attr (bump_total cnt)
  | CUpti_CallbackDomain.NVTX, CallbackArgs.nvtx cbid d =>
      handle_nvtx info cbid d (bump_total cnt)
  | _, _ => (bump_total cnt, [Action.logUnknownDomain])

/-- post_init_cb: create the nine attribute keys with the names, types and
properties of the source. -/
def post_init_cb (info : CuptiServiceInfo) : CuptiServiceInfo :=
  { info with
    runtime_attr := { name := "cupti.runtimeAPI", type := CaliType.STRING, prop := AttrProp.NESTED },
    driver_attr := { name := "cupti.driverAPI", type := CaliType.STRING, prop := AttrProp.NESTED },
    resource_attr := { name := "cupti.resource", type := CaliType.STRING, prop := AttrProp.DEFAULT },
    sync_attr := { name := "cupti.sync", type := CaliType.STRING, prop := AttrProp.DEFAULT },
    nvtx_range_attr := { name := "nvtx.range", type := CaliType.STRING, prop := AttrProp.NESTED },
    context_attr := { name := "cupti.contextID", type := CaliType.UINT, prop := AttrProp.SKIP_EVENTS },
    symbol_attr := { name := "cupti.symbolName", type := CaliType.STRING, prop := AttrProp.SKIP_EVENTS },
    device_attr := { name := "cupti.deviceID", type := CaliType.UINT, prop := AttrProp.SKIP_EVENTS },
    stream_attr := { name := "cupti.streamID", type := CaliType.UINT, prop := AttrProp.SKIP_EVENTS } }

/-- A zero-valued attribute handle, standing for the default-constructed
Attribute globals before post_init runs. -/
def dummy_attr : Attribute := { name := "", type := CaliType.STRING, prop := AttrProp.DEFAULT }

/-- The service info after post_init, with both record flags at their config
defaults (true). -/
def initial_cupti_info : CuptiServiceInfo :=
  post_init_cb
    { runtime_attr := dummy_attr, driver_attr := dummy_attr, resource_attr := dummy_attr,
      sync_attr := dummy_attr, nvtx_range_attr := dummy_attr, context_attr := dummy_attr,
      symbol_attr := dummy_attr, device_attr := dummy_attr, stream_attr := dummy_attr,
      record_context := true, record_symbol := true }

/-- The callback_domains name table, in source order, ending with the null-name
terminator (`none`). -/
def callback_domains : List (CUpti_CallbackDomain × Option String) :=
  [(CUpti_CallbackDomain.RUNTIME_API, some "runtime"),
   (CUpti_CallbackDomain.DRIVER_API, some "driver"),
   (CUpti_CallbackDomain.RESOURCE, some "resource"),
   (CUpti_CallbackDomain.SYNCHRONIZE, some "sync"),
   (CUpti_CallbackDomain.NVTX, some "nvtx"),
   (CUpti_CallbackDomain.INVALID, some "none"),
   (CUpti_CallbackDomain.INVALID, none)]

/-- The table scan `for ( ; cbinfo-name and s != cbinfo-name; ++cbinfo)`:
return the first entry whose name is null or equals `s`. -/
def lookup_domain (s : String) : List (CUpti_CallbackDomain × Option String) →
    CUpti_CallbackDomain × Option String
  | [] => (CUpti_CallbackDomain.INVALID, none)
  | e :: rest =>
    match e.2 with
    | none => e
    | some n => if s = n then e else lookup_domain s rest

/-- The per-token loop of register_callback_domains: unknown tokens warn and
continue; "none" resolves to the INVALID domain and enables nothing; other
tokens enable their domain, returning false immediately with the decoded
vendor error if the enable call fails. -/
def register_domains_loop (api : CuptiApi) : List String → Bool × List Action
  | [] => (true, [])
  | s :: rest =>
    if (lookup_domain s callback_domains).2 = none then
      ((register_domains_loop api rest).1,
        Action.logWarn ("cupti: warning: Unknown callback domain " ++ s) ::
        (register_domains_loop api rest).2)
    else if (lookup_domain s callback_domains).1 = CUpti_CallbackDomain.INVALID then
      register_domains_loop api rest
    else
      match api.enableDomainResult (lookup_domain s callback_domains).1 with
      | CUptiResult.success =>
          ((register_domains_loop api rest).1,
            Action.enableDomain (lookup_domain s callback_domains).1 ::
            Action.logInfo ("cupti: enabled " ++ s ++ " callback domain.") ::
            (register_domains_loop api rest).2)
      | CUptiResult.error n =>
          (false,
            [Action.logCuptiError "cuptiEnableDomain" (api.getResultString (CUptiResult.error n))])

/-- The hidden dependency: when event sampling is enabled and "resource" was
not requested, the "resource" token is appended to the configured list. -/
def effective_domain_names (sampling_enabled : Bool) (names : List String) : List String :=
  if sampling_enabled && !(names.contains "resource") then names ++ ["resource"] else names

/-- register_callback_domains: subscribe to the dispatcher (returning false
with the decoded error on failure), then enable each domain of the effective
token list. -/
def register_callback_domains (api : CuptiApi) (sampling_enabled : Bool)
    (cb_domain_names : List String) : Bool × List Action :=
  match api.subscribeResult with
  | CUptiResult.error n =>
      (false,
        [Action.cuptiSubscribe,
         Action.logCuptiError "cuptiSubscribe" (api.getResultString (CUptiResult.error n))])
  | CUptiResult.success =>
      ((register_domains_loop api (effective_domain_names sampling_enabled cb_domain_names)).1,
        Action.cuptiSubscribe ::
        (if sampling_enabled && !(cb_domain_names.contains "resource") then
           [Action.logInfo
             "cupti: Event sampling requires resource callbacks, adding resource callback domain."]
         else []) ++
        (register_domains_loop api (effective_domain_names sampling_enabled cb_domain_names)).2)

/-- Modelled from the spec: the event-sampling controller (class
Cupti::EventSampling from CuptiEventSampling.h, whose source is not part of
this repository's sources) reports `is_enabled()` true after `setup` ran for a
nonzero event id; spec section 6 states `sample_event_id` 0 disables sampling
and a nonzero value enables it. -/
def sampling_is_enabled (sample_event_id : Nat) : Bool := decide (0 < sample_event_id)

/-- Modelled from the spec: the token splitter of the configured domain list.
RuntimeConfig / StringConverter::to_stringlist is not part of this
repository's sources; the spec (section 6) calls `callback_domains` a
delimited list over the separators "," and ":".  Splits on any separator
character and drops empty tokens. -/
def split_tokens (seps : List Char) : List Char → List Char → List String
  | [], acc => if acc = [] then [] else [String.mk acc.reverse]
  | c :: cs, acc =>
    if c ∈ seps then
      (if acc = [] then [] else [String.mk acc.reverse]) ++ split_tokens seps cs []
    else split_tokens seps cs (c :: acc)

/-- Modelled from the spec: `config.get("callback_domains").to_stringlist(",:")`. -/
def to_stringlist (s : String) (seps : List Char) : List String :=
  split_tokens seps s.data []

/-- cuptiservice_initialize: read config, set up sampling for a nonzero event
id, register the callback domains (returning on failure), then set the record
flags and connect the snapshot (when sampling), post-init and finish
callbacks.  Counter zeroing is internal state, not an observable action. -/
def cuptiservice_initialize (api : CuptiApi) (cfg : ConfigValues) : List Action :=
  (if 0 < cfg.sample_event_id then [Action.samplingSetup cfg.sample_event_id] else []) ++
  (if (register_callback_domains api (sampling_is_enabled cfg.sample_event_id)
        (to_stringlist cfg.callback_domains [',', ':'])).1 = false then
    (register_callback_domains api (sampling_is_enabled cfg.sample_event_id)
      (to_stringlist cfg.callback_domains [',', ':'])).2
  else
    (register_callback_domains api (sampling_is_enabled cfg.sample_event_id)
      (to_stringlist cfg.callback_domains [',', ':'])).2 ++
    [Action.setRecordFlags cfg.record_context cfg.record_symbol] ++
    (if sampling_is_enabled cfg.sample_event_id then [Action.connectSnapshot] else []) ++
    [Action.connectPostInit, Action.connectFinish, Action.logInfo "Registered cupti service"])

/-- The domains enabled over a trace (successful cuptiEnableDomain calls). -/
def enabled_domains_of (acts : List Action) : List CUpti_CallbackDomain :=
  acts.filterMap (fun a =>
    match a with
    | Action.enableDomain d => some d
    | _ => none)

/-- Bool test: the action is a pushed snapshot record. -/
def isPushSnapshot : Action → Bool
  | Action.pushSnapshot _ => true
  | _ => false

/-- Bool test: the action is an enable_sampling_for_context call. -/
def isEnableSampling : Action → Bool
  | Action.enableSampling _ => true
  | _ => false

/-- Bool test: the action is a disable_sampling_for_context call. -/
def isDisableSampling : Action → Bool
  | Action.disableSampling _ => true
  | _ => false

/-- Bool test: the action ends the given attribute. -/
def isEndOf (a : Attribute) : Action → Bool
  | Action.endAttr b => decide (b = a)
  | _ => false

/-- Bool test: the action connects one of the three lifecycle callbacks. -/
def isConnectAction : Action → Bool
  | Action.connectSnapshot => true
  | Action.connectPostInit => true
  | Action.connectFinish => true
  | _ => false

/-- Bool test: the action logs a decoded vendor error. -/
def isLogCuptiError : Action → Bool
  | Action.logCuptiError _ _ => true
  | _ => false

/-- The first action satisfying `p` comes strictly before the first action
satisfying `q` (both must occur). -/
def occurs_before (p q : Action → Bool) (acts : List Action) : Bool :=
  match acts.findIdx? p, acts.findIdx? q with
  | some i, some j => decide (i < j)
  | _, _ => false

/-- Count of end calls on a given attribute in a trace. -/
def countEnds (a : Attribute) (acts : List Action) : Nat := acts.countP (isEndOf a)

/-- One step of the per-execution-context nesting stack maintained by the host:
set/begin push the attribute, end pops it and must find it on top; other
actions do not touch the stack.  `none` means the LIFO discipline was broken. -/
def stackStep (st : Option (List Attribute)) (act : Action) : Option (List Attribute) :=
  match st with
  | none => none
  | some s =>
    match act with
    | Action.setAttr x _ => some (x :: s)
    | Action.beginAttr x _ => some (x :: s)
    | Action.endAttr x =>
        match s with
        | [] => none
        | b :: s2 => if x = b then some s2 else none
    | _ => some s

/-- Run the nesting stack over a trace. -/
def runStackO (acts : List Action) (st : Option (List Attribute)) :
    Option (List Attribute) :=
  acts.foldl stackStep st

/-- A well-nested sequence of API calls on one execution context: `node sym fn
inner rest` is a function-entry event (symbol name `sym`, function name `fn`),
the calls nested inside it, its matching function-exit event, then the calls
following it.  CUPTI delivers the same CUpti_CallbackData fields at the enter
and exit sites of one call. -/
inductive CallTree
  | leaf
  | node (sym : Option String) (fn : String) (inner rest : CallTree)
  deriving DecidableEq

/-- Number of function-entry events in a call tree. -/
def numCalls : CallTree → Nat
  | CallTree.leaf => 0
  | CallTree.node _ _ inner rest => 1 + numCalls inner + numCalls rest

/-- All-zero counters. -/
def cnt0 : Counters := { num_cb := 0, num_api_cb := 0, num_resource_cb := 0,
                         num_sync_cb := 0, num_nvtx_cb := 0 }

/-- The trace of host calls produced by handle_callback over a well-nested
sequence of enter/exit events (the action trace does not depend on the
counter argument). -/
def apiTrace (info : CuptiServiceInfo) (attr : Attribute) : CallTree → List Action
  | CallTree.leaf => []
  | CallTree.node sym fn inner rest =>
    (handle_callback info 0 { callbackSite := CallbackSite.ENTER, symbolName := sym,
                              functionName := fn } attr cnt0).2 ++
    apiTrace info attr inner ++
    ((handle_callback info 0 { callbackSite := CallbackSite.EXIT, symbolName := sym,
                               functionName := fn } attr cnt0).2 ++
     apiTrace info attr rest)

/-- A vendor API on which every call succeeds. -/
def okApi : CuptiApi :=
  { getDeviceId := fun _ => some 0,
    getContextId := fun _ => some 1,
    getStreamId := fun _ _ => some 2,
    subscribeResult := CUptiResult.success,
    enableDomainResult := fun _ => CUptiResult.success,
    getResultString := fun r =>
      match r with
      | CUptiResult.success => "CUPTI_SUCCESS"
      | CUptiResult.error _ => "CUPTI_ERROR_UNKNOWN" }

/-- A vendor API on which device-id resolution fails. -/
def badIdApi : CuptiApi :=
  { okApi with getDeviceId := fun _ => none }

/-- A vendor API on which cuptiSubscribe fails. -/
def failSubApi : CuptiApi :=
  { okApi with subscribeResult := CUptiResult.error 1 }

/-- A vendor API on which cuptiEnableDomain fails for every domain. -/
def enableFailApi : CuptiApi :=
  { okApi with enableDomainResult := fun _ => CUptiResult.error 2 }

/-- Claim C1, counterexample: at a concrete context-destroy-starting resource
event with sampling enabled and successful id resolution, the snapshot record
is NOT emitted before disable_sampling_for_context; the disable call comes
first, refuting the claimed record-first-then-disable ordering. -/
theorem c1_counterexample :
    occurs_before isPushSnapshot isDisableSampling
      ((handle_resource okApi initial_cupti_info true
        CUpti_CallbackIdResource.CONTEXT_DESTROY_STARTING
        { context := 1, stream := 0 } cnt0).2) = false ∧
    occurs_before isDisableSampling isPushSnapshot
      ((handle_resource okApi initial_cupti_info true
        CUpti_CallbackIdResource.CONTEXT_DESTROY_STARTING
        { context := 1, stream := 0 } cnt0).2) = true := by
  decide

/-- Claim C1 (amended): for every context-create resource event observed while
sampling is enabled, enable_sampling_for_context is called before the
{device, context, tag="create_context"} record is emitted; and for every
context-destroy-starting event, disable_sampling_for_context is called FIRST
and the {device, context, tag="destroy_context"} record is emitted after it
(the trace starts with the sampling call and everything after it is a pushed
snapshot). -/
theorem c1_resource_sampling_order (api : CuptiApi) (info : CuptiServiceInfo)
    (d : CUpti_ResourceData) (cnt : Counters) :
    (handle_resource api info true CUpti_CallbackIdResource.CONTEXT_CREATED d cnt).2 =
      Action.enableSampling d.context ::
        handle_context_event api info d.context info.resource_attr
          (Variant.str "create_context" 15) ∧
    (handle_context_event api info d.context info.resource_attr
        (Variant.str "create_context" 15)).all isPushSnapshot = true ∧
    (handle_resource api info true CUpti_CallbackIdResource.CONTEXT_DESTROY_STARTING d cnt).2 =
      Action.disableSampling d.context ::
        handle_context_event api info d.context info.resource_attr
          (Variant.str "destroy_context" 16) ∧
    (handle_context_event api info d.context info.resource_attr
        (Variant.str "destroy_context" 16)).all isPushSnapshot = true := by
  refine ⟨by simp [handle_resource], ?_, by simp [handle_resource], ?_⟩ <;>
  · unfold handle_context_event
    cases api.getDeviceId d.context <;> cases api.getContextId d.context <;>
      simp [isPushSnapshot]

/-- Claim C3: a runtime-API enter/exit pair with record_symbol=true and a
non-null symbol name on both sites performs exactly set(symbol),
begin(function), end(function), end(symbol), in that order. -/
theorem c3_enter_exit_sequence (info : CuptiServiceInfo) (attr : Attribute)
    (s f : String) (cbid1 cbid2 : Nat) (c1 c2 : Counters)
    (h : info.record_symbol = true) :
    (handle_callback info cbid1
        { callbackSite := CallbackSite.ENTER, symbolName := some s, functionName := f }
        attr c1).2 ++
    (handle_callback info cbid2
        { callbackSite := CallbackSite.EXIT, symbolName := some s, functionName := f }
        attr c2).2 =
      [Action.setAttr info.symbol_attr (Variant.str s (strlen s)),
       Action.beginAttr attr (Variant.str f (strlen f)),
       Action.endAttr attr,
       Action.endAttr info.symbol_attr] := by
  simp [handle_callback, h]

/-- Claim C3, witness: the enter/exit pair evaluated at a concrete kernel
launch on the post-init attributes. -/
theorem c3_witness :
    (handle_callback initial_cupti_info 0
        { callbackSite := CallbackSite.ENTER, symbolName := some "kernel",
          functionName := "cudaLaunch" }
        initial_cupti_info.runtime_attr cnt0).2 ++
    (handle_callback initial_cupti_info 0
        { callbackSite := CallbackSite.EXIT, symbolName := some "kernel",
          functionName := "cudaLaunch" }
        initial_cupti_info.runtime_attr cnt0).2 =
      [Action.setAttr initial_cupti_info.symbol_attr (Variant.str "kernel" (strlen "kernel")),
       Action.beginAttr initial_cupti_info.runtime_attr
         (Variant.str "cudaLaunch" (strlen "cudaLaunch")),
       Action.endAttr initial_cupti_info.runtime_attr,
       Action.endAttr initial_cupti_info.symbol_attr] :=
  c3_enter_exit_sequence initial_cupti_info initial_cupti_info.runtime_attr
    "kernel" "cudaLaunch" 0 0 cnt0 cnt0 rfl

/-- Claim C7: every push-style NVTX marker (plain C-string, structured, and
domain-scoped structured) begins the nvtx range attribute with stored length
strlen(message)+1, one byte longer than the text; both pop-style events end
that same attribute, the domain-scoped pop being handled identically to the
global one. -/
theorem c7_nvtx_markers (info : CuptiServiceInfo) (d : CUpti_NvtxData) (cnt : Counters) :
    handle_nvtx info CUpti_NvtxCbid.rangePushA d cnt =
      (bump_nvtx cnt,
        [Action.beginAttr info.nvtx_range_attr
          (Variant.str d.message (strlen d.message + 1))]) ∧
    handle_nvtx info CUpti_NvtxCbid.rangePushEx d cnt =
      (bump_nvtx cnt,
        [Action.beginAttr info.nvtx_range_attr
          (Variant.str d.exMessage (strlen d.exMessage + 1))]) ∧
    handle_nvtx info CUpti_NvtxCbid.domainRangePushEx d cnt =
      (bump_nvtx cnt,
        [Action.beginAttr info.nvtx_range_attr
          (Variant.str d.domainExMessage (strlen d.domainExMessage + 1))]) ∧
    handle_nvtx info CUpti_NvtxCbid.rangePop d cnt =
      (bump_nvtx cnt, [Action.endAttr info.nvtx_range_attr]) ∧
    handle_nvtx info CUpti_NvtxCbid.domainRangePop d cnt =
      handle_nvtx info CUpti_NvtxCbid.rangePop d cnt :=
  ⟨rfl, rfl, rfl, rfl, rfl⟩

/-- Claim C4: when all three id resolutions succeed the stream handler emits
exactly one snapshot with the 4 pairs {device, context, stream, tag} in that
order; when any resolution fails it emits no action at all (no partial
record, no log). -/
theorem c4_stream_snapshot (api api2 : CuptiApi) (info : CuptiServiceInfo)
    (ctx strm ctx2 strm2 : Nat) (a a2 : Attribute) (v v2 : Variant)
    (dev cid sid : Nat)
    (h1 : api.getDeviceId ctx = some dev)
    (h2 : api.getContextId ctx = some cid)
    (h3 : api.getStreamId ctx strm = some sid)
    (h4 : api2.getDeviceId ctx2 = none ∨ api2.getContextId ctx2 = none ∨
          api2.getStreamId ctx2 strm2 = none) :
    handle_stream_event api info ctx strm a v =
      [Action.pushSnapshot
        [(info.device_attr, Variant.uint dev),
         (info.context_attr, Variant.uint cid),
         (info.stream_attr, Variant.uint sid),
         (a, v)]] ∧
    handle_stream_event api2 info ctx2 strm2 a2 v2 = [] := by
  constructor
  · simp [handle_stream_event, h1, h2, h3]
  · rcases h4 with h | h | h
    · simp [handle_stream_event, h]
    · cases hd : api2.getDeviceId ctx2 <;> simp [handle_stream_event, hd, h]
    · cases hd : api2.getDeviceId ctx2 <;> cases hc : api2.getContextId ctx2 <;>
        simp [handle_stream_event, hd, hc, h]

/-- Claim C4, witness: the stream handler at a fully-resolving API and at an
API whose device-id resolution fails. -/
theorem c4_witness :
    handle_stream_event okApi initial_cupti_info 1 3 initial_cupti_info.sync_attr
        (Variant.str "stream" 7) =
      [Action.pushSnapshot
        [(initial_cupti_info.device_attr, Variant.uint 0),
         (initial_cupti_info.context_attr, Variant.uint 1),
         (initial_cupti_info.stream_attr, Variant.uint 2),
         (initial_cupti_info.sync_attr, Variant.str "stream" 7)]] ∧
    handle_stream_event badIdApi initial_cupti_info 1 3 initial_cupti_info.sync_attr
        (Variant.str "stream" 7) = [] :=
  c4_stream_snapshot okApi badIdApi initial_cupti_info 1 3 1 3
    initial_cupti_info.sync_attr initial_cupti_info.sync_attr
    (Variant.str "stream" 7) (Variant.str "stream" 7) 0 1 2 rfl rfl rfl (Or.inl rfl)

/-- Claim C9: every tag string stored in resource and synchronize snapshot
records carries length strlen(tag)+1 — the null terminator is included for
"create_context", "destroy_context", "create_stream", "destroy_stream",
"stream" and "context", not only for the NVTX annotation strings. -/
theorem c9_tag_lengths (api : CuptiApi) (info : CuptiServiceInfo)
    (ctx strm dev cid sid : Nat) (cnt : Counters)
    (h1 : api.getDeviceId ctx = some dev)
    (h2 : api.getContextId ctx = some cid)
    (h3 : api.getStreamId ctx strm = some sid) :
    (handle_resource api info false CUpti_CallbackIdResource.CONTEXT_CREATED
        { context := ctx, stream := strm } cnt).2 =
      [Action.pushSnapshot
        [(info.device_attr, Variant.uint dev),
         (info.context_attr, Variant.uint cid),
         (info.resource_attr, Variant.str "create_context" (strlen "create_context" + 1))]] ∧
    (handle_resource api info false CUpti_CallbackIdResource.CONTEXT_DESTROY_STARTING
        { context := ctx, stream := strm } cnt).2 =
      [Action.pushSnapshot
        [(info.device_attr, Variant.uint dev),
         (info.context_attr, Variant.uint cid),
         (info.resource_attr, Variant.str "destroy_context" (strlen "destroy_context" + 1))]] ∧
    (handle_resource api info false CUpti_CallbackIdResource.STREAM_CREATED
        { context := ctx, stream := strm } cnt).2 =
      [Action.pushSnapshot
        [(info.device_attr, Variant.uint dev),
         (info.context_attr, Variant.uint cid),
         (info.stream_attr, Variant.uint sid),
         (info.resource_attr, Variant.str "create_stream" (strlen "create_stream" + 1))]] ∧
    (handle_resource api info false CUpti_CallbackIdResource.STREAM_DESTROY_STARTING
        { context := ctx, stream := strm } cnt).2 =
      [Action.pushSnapshot
        [(info.device_attr, Variant.uint dev),
         (info.context_attr, Variant.uint cid),
         (info.stream_attr, Variant.uint sid),
         (info.resource_attr, Variant.str "destroy_stream" (strlen "destroy_stream" + 1))]] ∧
    (handle_synchronize api info CUpti_CallbackIdSync.STREAM_SYNCHRONIZED
        { context := ctx, stream := strm } cnt).2 =
      [Action.pushSnapshot
        [(info.device_attr, Variant.uint dev),
         (info.context_attr, Variant.uint cid),
         (info.stream_attr, Variant.uint sid),
         (info.sync_attr, Variant.str "stream" (strlen "stream" + 1))]] ∧
    (handle_synchronize api info CUpti_CallbackIdSync.CONTEXT_SYNCHRONIZED
        { context := ctx, stream := strm } cnt).2 =
      [Action.pushSnapshot
        [(info.device_attr, Variant.uint dev),
         (info.context_attr, Variant.uint cid),
         (info.sync_attr, Variant.str "context" (strlen "context" + 1))]] := by
  refine ⟨?_, ?_, ?_, ?_, ?_, ?_⟩ <;>
    simp [handle_resource, handle_synchronize, handle_context_event,
          handle_stream_event, h1, h2, h3] <;> decide

/-- Claim C9, witness: the six tag records evaluated on a fully-resolving API. -/
theorem c9_witness :
    (handle_resource okApi initial_cupti_info false
        CUpti_CallbackIdResource.CONTEXT_CREATED { context := 1, stream := 3 } cnt0).2 =
      [Action.pushSnapshot
        [(initial_cupti_info.device_attr, Variant.uint 0),
         (initial_cupti_info.context_attr, Variant.uint 1),
         (initial_cupti_info.resource_attr,
          Variant.str "create_context" (strlen "create_context" + 1))]] ∧
    (handle_resource okApi initial_cupti_info false
        CUpti_CallbackIdResource.CONTEXT_DESTROY_STARTING { context := 1, stream := 3 } cnt0).2 =
      [Action.pushSnapshot
        [(initial_cupti_info.device_attr, Variant.uint 0),
         (initial_cupti_info.context_attr, Variant.uint 1),
         (initial_cupti_info.resource_attr,
          Variant.str "destroy_context" (strlen "destroy_context" + 1))]] ∧
    (handle_resource okApi initial_cupti_info false
        CUpti_CallbackIdResource.STREAM_CREATED { context := 1, stream := 3 } cnt0).2 =
      [Action.pushSnapshot
        [(initial_cupti_info.device_attr, Variant.uint 0),
         (initial_cupti_info.context_attr, Variant.uint 1),
         (initial_cupti_info.stream_attr, Variant.uint 2),
         (initial_cupti_info.resource_attr,
          Variant.str "create_stream" (strlen "create_stream" + 1))]] ∧
    (handle_resource okApi initial_cupti_info false
        CUpti_CallbackIdResource.STREAM_DESTROY_STARTING { context := 1, stream := 3 } cnt0).2 =
      [Action.pushSnapshot
        [(initial_cupti_info.device_attr, Variant.uint 0),
         (initial_cupti_info.context_attr, Variant.uint 1),
         (initial_cupti_info.stream_attr, Variant.uint 2),
         (initial_cupti_info.resource_attr,
          Variant.str "destroy_stream" (strlen "destroy_stream" + 1))]] ∧
    (handle_synchronize okApi initial_cupti_info
        CUpti_CallbackIdSync.STREAM_SYNCHRONIZED { context := 1, stream := 3 } cnt0).2 =
      [Action.pushSnapshot
        [(initial_cupti_info.device_attr, Variant.uint 0),
         (initial_cupti_info.context_attr, Variant.uint 1),
         (initial_cupti_info.stream_attr, Variant.uint 2),
         (initial_cupti_info.sync_attr, Variant.str "stream" (strlen "stream" + 1))]] ∧
    (handle_synchronize okApi initial_cupti_info
        CUpti_CallbackIdSync.CONTEXT_SYNCHRONIZED { context := 1, stream := 3 } cnt0).2 =
      [Action.pushSnapshot
        [(initial_cupti_info.device_attr, Variant.uint 0),
         (initial_cupti_info.context_attr, Variant.uint 1),
         (initial_cupti_info.sync_attr, Variant.str "context" (strlen "context" + 1))]] :=
  c9_tag_lengths okApi initial_cupti_info 1 3 0 1 2 cnt0 rfl rfl rfl

/-- Claim C5: when sampling is enabled and the configured domain-name list
lacks "resource", the token is appended; and for the scenario
callback_domains="sync", sample_event_id=42 on an all-success vendor API, the
enabled callback domains of initialization are exactly sync and resource. -/
theorem c5_sampling_adds_resource (names : List String)
    (h : names.contains "resource" = false) :
    effective_domain_names true names = names ++ ["resource"] ∧
    enabled_domains_of ( cuptiservice_initialize okApi
      { callback_domains := "sync", record_symbol := true, record_context := true,
        sample_event_id := 42 }) =
      [CUpti_CallbackDomain.SYNCHRONIZE, CUpti_CallbackDomain.RESOURCE] := by
  constructor
  · have h2 : ¬("resource" ∈ names) := by simpa using h
    simp [effective_domain_names, h2]
  · decide

/-- Claim C5, witness: the configured list ["sync"] does not contain
"resource" and gets it appended; the scenario conjunct instantiated. -/
theorem c5_witness :
    effective_domain_names true ["sync"] = ["sync"] ++ ["resource"] ∧
    enabled_domains_of ( cuptiservice_initialize okApi
      { callback_domains := "sync", record_symbol := true, record_context := true,
        sample_event_id := 42 }) =
      [CUpti_CallbackDomain.SYNCHRONIZE, CUpti_CallbackDomain.RESOURCE] :=
  c5_sampling_adds_resource ["sync"] (by decide)

/-- Claim C6: domain-token resolution is total over the six known tokens —
each of runtime, driver, resource, sync and nvtx resolves to, and (on an API
whose enables succeed) enables, exactly its vendor domain; "none" is accepted
and enables no domain; any other token resolves to the null table terminator,
produces a warning, enables nothing and lets the loop continue with the
remaining tokens. -/
theorem c6_domain_token_resolution (api : CuptiApi) (s : String) (rest : List String)
    (hok1 : api.enableDomainResult CUpti_CallbackDomain.RUNTIME_API = CUptiResult.success)
    (hok2 : api.enableDomainResult CUpti_CallbackDomain.DRIVER_API = CUptiResult.success)
    (hok3 : api.enableDomainResult CUpti_CallbackDomain.RESOURCE = CUptiResult.success)
    (hok4 : api.enableDomainResult CUpti_CallbackDomain.SYNCHRONIZE = CUptiResult.success)
    (hok5 : api.enableDomainResult CUpti_CallbackDomain.NVTX = CUptiResult.success)
    (hs : s ∉ ["runtime", "driver", "resource", "sync", "nvtx", "none"]) :
    lookup_domain "runtime" callback_domains =
      (CUpti_CallbackDomain.RUNTIME_API, some "runtime") ∧
    lookup_domain "driver" callback_domains =
      (CUpti_CallbackDomain.DRIVER_API, some "driver") ∧
    lookup_domain "resource" callback_domains =
      (CUpti_CallbackDomain.RESOURCE, some "resource") ∧
    lookup_domain "sync" callback_domains =
      (CUpti_CallbackDomain.SYNCHRONIZE, some "sync") ∧
    lookup_domain "nvtx" callback_domains =
      (CUpti_CallbackDomain.NVTX, some "nvtx") ∧
    lookup_domain "none" callback_domains =
      (CUpti_CallbackDomain.INVALID, some "none") ∧
    register_domains_loop api ["runtime"] =
      (true, [Action.enableDomain CUpti_CallbackDomain.RUNTIME_API,
              Action.logInfo "cupti: enabled runtime callback domain."]) ∧
    register_domains_loop api ["driver"] =
      (true, [Action.enableDomain CUpti_CallbackDomain.DRIVER_API,
              Action.logInfo "cupti: enabled driver callback domain."]) ∧
    register_domains_loop api ["resource"] =
      (true, [Action.enableDomain CUpti_CallbackDomain.RESOURCE,
              Action.logInfo "cupti: enabled resource callback domain."]) ∧
    register_domains_loop api ["sync"] =
      (true, [Action.enableDomain CUpti_CallbackDomain.SYNCHRONIZE,
              Action.logInfo "cupti: enabled sync callback domain."]) ∧
    register_domains_loop api ["nvtx"] =
      (true, [Action.enableDomain CUpti_CallbackDomain.NVTX,
              Action.logInfo "cupti: enabled nvtx callback domain."]) ∧
    register_domains_loop api ["none"] = (true, []) ∧
    lookup_domain s callback_domains = (CUpti_CallbackDomain.INVALID, none) ∧
    register_domains_loop api (s :: rest) =
      ((register_domains_loop api rest).1,
        Action.logWarn ("cupti: warning: Unknown callback domain " ++ s) ::
        (register_domains_loop api rest).2) := by
  have h1 : s ≠ "runtime" := by intro e; exact hs (by simp [e])
  have h2 : s ≠ "driver" := by intro e; exact hs (by simp [e])
  have h3 : s ≠ "resource" := by intro e; exact hs (by simp [e])
  have h4 : s ≠ "sync" := by intro e; exact hs (by simp [e])
  have h5 : s ≠ "nvtx" := by intro e; exact hs (by simp [e])
  have h6 : s ≠ "none" := by intro e; exact hs (by simp [e])
  have hlook : lookup_domain s callback_domains = (CUpti_CallbackDomain.INVALID, none) := by
    simp [lookup_domain, callback_domains, h1, h2, h3, h4, h5, h6]
  refine ⟨rfl, rfl, rfl, rfl, rfl, rfl, ?_, ?_, ?_, ?_, ?_, rfl, hlook, ?_⟩
  · simp [register_domains_loop, lookup_domain, callback_domains, hok1]
  · simp [register_domains_loop, lookup_domain, callback_domains, hok2]
  · simp [register_domains_loop, lookup_domain, callback_domains, hok3]
  · simp [register_domains_loop, lookup_domain, callback_domains, hok4]
  · simp [register_domains_loop, lookup_domain, callback_domains, hok5]
  · simp [register_domains_loop, hlook]

/-- Claim C6, witness: the resolution facts evaluated on the all-success API,
with the unknown token "foobar" warned and skipped at the head of the list
["foobar", "sync"]. -/
theorem c6_witness :
    lookup_domain "runtime" callback_domains =
      (CUpti_CallbackDomain.RUNTIME_API, some "runtime") ∧
    lookup_domain "driver" callback_domains =
      (CUpti_CallbackDomain.DRIVER_API, some "driver") ∧
    lookup_domain "resource" callback_domains =
      (CUpti_CallbackDomain.RESOURCE, some "resource") ∧
    lookup_domain "sync" callback_domains =
      (CUpti_CallbackDomain.SYNCHRONIZE, some "sync") ∧
    lookup_domain "nvtx" callback_domains =
      (CUpti_CallbackDomain.NVTX, some "nvtx") ∧
    lookup_domain "none" callback_domains =
      (CUpti_CallbackDomain.INVALID, some "none") ∧
    register_domains_loop okApi ["runtime"] =
      (true, [Action.enableDomain CUpti_CallbackDomain.RUNTIME_API,
              Action.logInfo "cupti: enabled runtime callback domain."]) ∧
    register_domains_loop okApi ["driver"] =
      (true, [Action.enableDomain CUpti_CallbackDomain.DRIVER_API,
              Action.logInfo "cupti: enabled driver callback domain."]) ∧
    register_domains_loop okApi ["resource"] =
      (true, [Action.enableDomain CUpti_CallbackDomain.RESOURCE,
              Action.logInfo "cupti: enabled resource callback domain."]) ∧
    register_domains_loop okApi ["sync"] =
      (true, [Action.enableDomain CUpti_CallbackDomain.SYNCHRONIZE,
              Action.logInfo "cupti: enabled sync callback domain."]) ∧
    register_domains_loop okApi ["nvtx"] =
      (true, [Action.enableDomain CUpti_CallbackDomain.NVTX,
              Action.logInfo "cupti: enabled nvtx callback domain."]) ∧
    register_domains_loop okApi ["none"] = (true, []) ∧
    lookup_domain "foobar" callback_domains = (CUpti_CallbackDomain.INVALID, none) ∧
    register_domains_loop okApi ["foobar", "sync"] =
      ((register_domains_loop okApi ["sync"]).1,
        Action.logWarn ("cupti: warning: Unknown callback domain " ++ "foobar") ::
        (register_domains_loop okApi ["sync"]).2) :=
  c6_domain_token_resolution okApi "foobar" ["sync"] rfl rfl rfl rfl rfl (by decide)

/-- First component of handle_resource: the resource counter is bumped exactly
once, on every callback id. -/
theorem handle_resource_fst (api : CuptiApi) (info : CuptiServiceInfo) (sb : Bool)
    (cbid : CUpti_CallbackIdResource) (d : CUpti_ResourceData) (cnt : Counters) :
    (handle_resource api info sb cbid d cnt).1 = bump_resource cnt := by
  cases cbid <;> rfl

/-- First component of handle_synchronize: the sync counter is bumped exactly
once, on every callback id. -/
theorem handle_synchronize_fst (api : CuptiApi) (info : CuptiServiceInfo)
    (cbid : CUpti_CallbackIdSync) (d : CUpti_SynchronizeData) (cnt : Counters) :
    (handle_synchronize api info cbid d cnt).1 = bump_sync cnt := by
  cases cbid <;> rfl

/-- First component of handle_nvtx: the nvtx counter is bumped exactly once,
on every callback id. -/
theorem handle_nvtx_fst (info : CuptiServiceInfo) (cbid : CUpti_NvtxCbid)
    (d : CUpti_NvtxData) (cnt : Counters) :
    (handle_nvtx info cbid d cnt).1 = bump_nvtx cnt := by
  cases cbid <;> rfl

/-- First component of handle_callback: the API counter is bumped exactly
once, at either callback site. -/
theorem handle_callback_fst (info : CuptiServiceInfo) (cbid : Nat)
    (d : CUpti_CallbackData) (attr : Attribute) (cnt : Counters) :
    (handle_callback info cbid d attr cnt).1 = bump_api cnt := by
  rcases d with ⟨site, sym, fn⟩
  cases site <;> rfl

/-- Claim C10: the router bumps num_cb by exactly one on every delivery,
including unrecognized domains; each domain handler bumps its per-domain
counter exactly once per delivery, even for an unrecognized callback id where
no record is emitted; and the runtime-API and driver-API domains share the one
num_api_cb counter. -/
theorem c10_counters (api : CuptiApi) (info : CuptiServiceInfo) (sb : Bool)
    (dom : CUpti_CallbackDomain) (cb : CallbackArgs) (cnt : Counters)
    (cbidR : CUpti_CallbackIdResource) (dR : CUpti_ResourceData) (k : Nat)
    (cbidS : CUpti_CallbackIdSync) (dS : CUpti_SynchronizeData)
    (cbidN : CUpti_NvtxCbid) (dN : CUpti_NvtxData)
    (cbidA : Nat) (dA : CUpti_CallbackData) (attrA : Attribute) :
    (cupti_callback api info sb dom cb cnt).1.num_cb = cnt.num_cb + 1 ∧
    (handle_resource api info sb cbidR dR cnt).1.num_resource_cb =
      cnt.num_resource_cb + 1 ∧
    (handle_resource api info sb (CUpti_CallbackIdResource.OTHER k) dR cnt).2 = [] ∧
    (handle_synchronize api info cbidS dS cnt).1.num_sync_cb = cnt.num_sync_cb + 1 ∧
    (handle_nvtx info cbidN dN cnt).1.num_nvtx_cb = cnt.num_nvtx_cb + 1 ∧
    (handle_callback info cbidA dA attrA cnt).1.num_api_cb = cnt.num_api_cb + 1 ∧
    (cupti_callback api info sb CUpti_CallbackDomain.RUNTIME_API
        (CallbackArgs.api cbidA dA) cnt).1.num_api_cb = cnt.num_api_cb + 1 ∧
    (cupti_callback api info sb CUpti_CallbackDomain.DRIVER_API
        (CallbackArgs.api cbidA dA) cnt).1.num_api_cb = cnt.num_api_cb + 1 := by
  refine ⟨?_, ?_, rfl, ?_, ?_, ?_, ?_, ?_⟩
  · cases dom <;> cases cb <;>
      simp [cupti_callback, handle_resource_fst, handle_synchronize_fst,
            handle_nvtx_fst, handle_callback_fst,
            bump_total, bump_resource, bump_sync, bump_nvtx, bump_api]
  · rw [handle_resource_fst]; simp [bump_resource]
  · rw [handle_synchronize_fst]; simp [bump_sync]
  · rw [handle_nvtx_fst]; simp [bump_nvtx]
  · rw [handle_callback_fst]; simp [bump_api]
  · simp [cupti_callback, handle_callback_fst, bump_api, bump_total]
  · simp [cupti_callback, handle_callback_fst, bump_api, bump_total]

/-- Running the nesting stack over an appended trace composes. -/
theorem runStackO_append (l1 l2 : List Action) (st : Option (List Attribute)) :
    runStackO (l1 ++ l2) st = runStackO l2 (runStackO l1 st) := by
  simp [runStackO, List.foldl_append]

/-- The nesting stack on the empty trace. -/
theorem runStackO_nil (st : Option (List Attribute)) : runStackO [] st = st := rfl

/-- The nesting stack steps through the head of a trace. -/
theorem runStackO_cons (a : Action) (acts : List Action) (st : Option (List Attribute)) :
    runStackO (a :: acts) st = runStackO acts (stackStep st a) := rfl

/-- End counts add over appended traces. -/
theorem countEnds_append (a : Attribute) (l1 l2 : List Action) :
    countEnds a (l1 ++ l2) = countEnds a l1 + countEnds a l2 := by
  simp [countEnds, List.countP_append]

/-- A function-entry trace contains no end call on the function attribute. -/
theorem countEnds_enter (info : CuptiServiceInfo) (attr : Attribute)
    (sym : Option String) (fn : String) :
    countEnds attr ((handle_callback info 0
      { callbackSite := CallbackSite.ENTER, symbolName := sym, functionName := fn }
      attr cnt0).2) = 0 := by
  cases sym <;> cases hrs : info.record_symbol <;>
    simp [handle_callback, hrs, countEnds, isEndOf]

/-- A function-exit trace contains exactly one end call on the function
attribute, provided the function attribute differs from the symbol attribute. -/
theorem countEnds_exit (info : CuptiServiceInfo) (attr : Attribute)
    (sym : Option String) (fn : String) (hne : attr ≠ info.symbol_attr) :
    countEnds attr ((handle_callback info 0
      { callbackSite := CallbackSite.EXIT, symbolName := sym, functionName := fn }
      attr cnt0).2) = 1 := by
  have hsym : info.symbol_attr ≠ attr := fun e => absurd e.symm hne
  cases sym <;> cases hrs : info.record_symbol <;>
    simp [handle_callback, hrs, countEnds, isEndOf, hsym]

/-- Over any well-nested sequence of API calls, the number of end calls on the
function attribute equals the number of function-entry events. -/
theorem apiTrace_countEnds (info : CuptiServiceInfo) (attr : Attribute)
    (hne : attr ≠ info.symbol_attr) :
    ∀ t : CallTree, countEnds attr (apiTrace info attr t) = numCalls t := by
  intro t
  induction t with
  | leaf => rfl
  | node sym fn inner rest ih1 ih2 =>
    simp only [apiTrace, numCalls, countEnds_append, ih1, ih2,
               countEnds_enter, countEnds_exit info attr sym fn hne]
    omega

/-- The nesting stack is preserved by the trace of any well-nested sequence of
API calls: every begin/set is matched by an end popped in reverse order. -/
theorem apiTrace_balanced (info : CuptiServiceInfo) (attr : Attribute) :
    ∀ (t : CallTree) (st : List Attribute),
      runStackO (apiTrace info attr t) (some st) = some st := by
  intro t
  induction t with
  | leaf => intro st; rfl
  | node sym fn inner rest ih1 ih2 =>
    intro st
    simp only [apiTrace, runStackO_append]
    cases sym with
    | none =>
        simp [handle_callback, runStackO_cons, runStackO_nil, stackStep, ih1, ih2]
    | some s =>
        cases hrs : info.record_symbol <;>
          simp [handle_callback, hrs, runStackO_cons, runStackO_nil, stackStep, ih1, ih2]

/-- Claim C2, counterexample: for a concrete enter/exit pair with a symbol
name recorded, the symbol-attribute end occurs AFTER the function-name
attribute end, not before it: the claimed precedence fails on this input. -/
theorem c2_counterexample :
    occurs_before (isEndOf initial_cupti_info.symbol_attr)
      (isEndOf initial_cupti_info.runtime_attr)
      ((handle_callback initial_cupti_info 0
          { callbackSite := CallbackSite.ENTER, symbolName := some "kernel",
            functionName := "cudaLaunch" }
          initial_cupti_info.runtime_attr cnt0).2 ++
       (handle_callback initial_cupti_info 0
          { callbackSite := CallbackSite.EXIT, symbolName := some "kernel",
            functionName := "cudaLaunch" }
          initial_cupti_info.runtime_attr cnt0).2) = false ∧
    occurs_before (isEndOf initial_cupti_info.runtime_attr)
      (isEndOf initial_cupti_info.symbol_attr)
      ((handle_callback initial_cupti_info 0
          { callbackSite := CallbackSite.ENTER, symbolName := some "kernel",
            functionName := "cudaLaunch" }
          initial_cupti_info.runtime_attr cnt0).2 ++
       (handle_callback initial_cupti_info 0
          { callbackSite := CallbackSite.EXIT, symbolName := some "kernel",
            functionName := "cudaLaunch" }
          initial_cupti_info.runtime_attr cnt0).2) = true := by
  decide

/-- Claim C2 (amended): for any well-nested sequence of N function-entry
events on one execution context, exactly N end calls on the function
attribute occur, the whole begin/set/end trace balances in LIFO order, and a
symbol-attribute end, when one occurs for a call, always FOLLOWS that call's
function-name-attribute end (the exit trace starts with the function-name
end). -/
theorem c2_api_call_lifo (info : CuptiServiceInfo) (attr : Attribute) (t : CallTree)
    (cbid : Nat) (d : CUpti_CallbackData) (c : Counters)
    (h1 : attr ≠ info.symbol_attr) (h2 : d.callbackSite = CallbackSite.EXIT) :
    countEnds attr (apiTrace info attr t) = numCalls t ∧
    runStackO (apiTrace info attr t) (some []) = some [] ∧
    ((handle_callback info cbid d attr c).2).head? = some (Action.endAttr attr) := by
  refine ⟨apiTrace_countEnds info attr h1 t, apiTrace_balanced info attr t [], ?_⟩
  rcases d with ⟨site, sym, fn⟩
  cases site with
  | ENTER => cases h2
  | EXIT => simp [handle_callback]

/-- Claim C2, witness: a nested two-call tree evaluated on the post-init
attributes, with a concrete exit event. -/
theorem c2_witness :
    countEnds initial_cupti_info.runtime_attr
      (apiTrace initial_cupti_info initial_cupti_info.runtime_attr
        (CallTree.node (some "kernel") "cudaLaunch"
          (CallTree.node none "cudaMemcpy" CallTree.leaf CallTree.leaf) CallTree.leaf)) =
      numCalls (CallTree.node (some "kernel") "cudaLaunch"
        (CallTree.node none "cudaMemcpy" CallTree.leaf CallTree.leaf) CallTree.leaf) ∧
    runStackO
      (apiTrace initial_cupti_info initial_cupti_info.runtime_attr
        (CallTree.node (some "kernel") "cudaLaunch"
          (CallTree.node none "cudaMemcpy" CallTree.leaf CallTree.leaf) CallTree.leaf))
      (some []) = some [] ∧
    ((handle_callback initial_cupti_info 0
        { callbackSite := CallbackSite.EXIT, symbolName := some "kernel",
          functionName := "cudaLaunch" }
        initial_cupti_info.runtime_attr cnt0).2).head? =
      some (Action.endAttr initial_cupti_info.runtime_attr) :=
  c2_api_call_lifo initial_cupti_info initial_cupti_info.runtime_attr
    (CallTree.node (some "kernel") "cudaLaunch"
      (CallTree.node none "cudaMemcpy" CallTree.leaf CallTree.leaf) CallTree.leaf)
    0 { callbackSite := CallbackSite.EXIT, symbolName := some "kernel",
        functionName := "cudaLaunch" }
    cnt0 (by decide) rfl

/-- No action of the trace connects a lifecycle callback. -/
def noConnect : List Action → Bool
  | [] => true
  | a :: rest => !(isConnectAction a) && noConnect rest

/-- Some action of the trace logs a decoded vendor error. -/
def hasCuptiErrorLog : List Action → Bool
  | [] => false
  | a :: rest => isLogCuptiError a || hasCuptiErrorLog rest

/-- noConnect distributes over appended traces. -/
theorem noConnect_append (l1 l2 : List Action) :
    noConnect (l1 ++ l2) = (noConnect l1 && noConnect l2) := by
  induction l1 with
  | nil => simp [noConnect]
  | cons a rest ih => simp [noConnect, ih, Bool.and_assoc]

/-- hasCuptiErrorLog distributes over appended traces. -/
theorem hasCuptiErrorLog_append (l1 l2 : List Action) :
    hasCuptiErrorLog (l1 ++ l2) = (hasCuptiErrorLog l1 || hasCuptiErrorLog l2) := by
  induction l1 with
  | nil => simp [hasCuptiErrorLog]
  | cons a rest ih => simp [hasCuptiErrorLog, ih, Bool.or_assoc]

/-- The domain-enable loop never connects a lifecycle callback. -/
theorem loop_no_connect (api : CuptiApi) : ∀ names : List String,
    noConnect (register_domains_loop api names).2 = true := by
  intro names
  induction names with
  | nil => rfl
  | cons s rest ih =>
    by_cases h1 : (lookup_domain s callback_domains).2 = none
    · simp [register_domains_loop, h1, noConnect, isConnectAction, ih]
    · by_cases h2 : (lookup_domain s callback_domains).1 = CUpti_CallbackDomain.INVALID
      · simp [register_domains_loop, h1, h2, ih]
      · cases he : api.enableDomainResult (lookup_domain s callback_domains).1 with
        | success => simp [register_domains_loop, h1, h2, he, noConnect, isConnectAction, ih]
        | error n => simp [register_domains_loop, h1, h2, he, noConnect, isConnectAction]

/-- When the domain-enable loop fails, a decoded vendor error was logged. -/
theorem loop_false_logs (api : CuptiApi) : ∀ names : List String,
    (register_domains_loop api names).1 = false →
    hasCuptiErrorLog (register_domains_loop api names).2 = true := by
  intro names
  induction names with
  | nil => intro h; cases h
  | cons s rest ih =>
    intro h
    by_cases h1 : (lookup_domain s callback_domains).2 = none
    · simp [register_domains_loop, h1] at h
      simp [register_domains_loop, h1, hasCuptiErrorLog, isLogCuptiError]
      exact ih h
    · by_cases h2 : (lookup_domain s callback_domains).1 = CUpti_CallbackDomain.INVALID
      · simp [register_domains_loop, h1, h2] at h
        simp [register_domains_loop, h1, h2]
        exact ih h
      · cases he : api.enableDomainResult (lookup_domain s callback_domains).1 with
        | success =>
            simp [register_domains_loop, h1, h2, he] at h
            simp [register_domains_loop, h1, h2, he, hasCuptiErrorLog, isLogCuptiError]
            exact ih h
        | error n =>
            simp [register_domains_loop, h1, h2, he, hasCuptiErrorLog, isLogCuptiError]

/-- register_callback_domains never connects a lifecycle callback. -/
theorem register_no_connect (api : CuptiApi) (sb : Bool) (names : List String) :
    noConnect (register_callback_domains api sb names).2 = true := by
  cases hs : api.subscribeResult with
  | error n => simp [register_callback_domains, hs, noConnect, isConnectAction]
  | success =>
      simp [register_callback_domains, hs, noConnect, noConnect_append,
            isConnectAction, loop_no_connect]
      split <;> simp [noConnect, isConnectAction]

/-- When register_callback_domains fails, a decoded vendor error was logged. -/
theorem register_false_logs (api : CuptiApi) (sb : Bool) (names : List String)
    (h : (register_callback_domains api sb names).1 = false) :
    hasCuptiErrorLog (register_callback_domains api sb names).2 = true := by
  cases hs : api.subscribeResult with
  | error n => simp [register_callback_domains, hs, hasCuptiErrorLog, isLogCuptiError]
  | success =>
      simp only [register_callback_domains, hs] at h ⊢
      cases hb : sb && !(names.contains "resource") <;>
        simp [hb, hasCuptiErrorLog, hasCuptiErrorLog_append, isLogCuptiError,
              loop_false_logs api _ h]

/-- If enabling any requested domain fails, the domain-enable loop fails. -/
theorem enable_fail_loop_false (api : CuptiApi) : ∀ names : List String,
    (∃ s ∈ names, (lookup_domain s callback_domains).2 ≠ none ∧
      (lookup_domain s callback_domains).1 ≠ CUpti_CallbackDomain.INVALID ∧
      api.enableDomainResult (lookup_domain s callback_domains).1 ≠ CUptiResult.success) →
    (register_domains_loop api names).1 = false := by
  intro names
  induction names with
  | nil =>
      rintro ⟨s, hs, _⟩
      cases hs
  | cons s0 rest ih =>
    rintro ⟨s, hs, hA, hB, hC⟩
    rcases List.mem_cons.mp hs with rfl | hmem
    · by_cases h1 : (lookup_domain s callback_domains).2 = none
      · exact absurd h1 hA
      · by_cases h2 : (lookup_domain s callback_domains).1 = CUpti_CallbackDomain.INVALID
        · exact absurd h2 hB
        · cases he : api.enableDomainResult (lookup_domain s callback_domains).1 with
          | success => exact absurd he hC
          | error n => simp [register_domains_loop, h1, h2, he]
    · have hrest := ih ⟨s, hmem, hA, hB, hC⟩
      by_cases h1 : (lookup_domain s0 callback_domains).2 = none
      · simp [register_domains_loop, h1, hrest]
      · by_cases h2 : (lookup_domain s0 callback_domains).1 = CUpti_CallbackDomain.INVALID
        · simp [register_domains_loop, h1, h2, hrest]
        · cases he : api.enableDomainResult (lookup_domain s0 callback_domains).1 with
          | success => simp [register_domains_loop, h1, h2, he, hrest]
          | error n => simp [register_domains_loop, h1, h2, he]

/-- Claim C8: when registration fails (subscribe failure or a domain-enable
failure), initialization emits only the sampling setup and the registration
actions — no snapshot, post-init or finish lifecycle callback is connected —
and a decoded vendor error is logged; a subscribe failure yields exactly the
subscribe attempt and its decoded error, and a failing enable on a requested
domain makes registration fail. -/
theorem c8_startup_failure (api apiS apiE : CuptiApi) (cfg : ConfigValues) (m : Nat)
    (sbS sbE : Bool) (namesS namesE : List String)
    (h : (register_callback_domains api (sampling_is_enabled cfg.sample_event_id)
           (to_stringlist cfg.callback_domains [',', ':'])).1 = false)
    (hS : apiS.subscribeResult = CUptiResult.error m)
    (hE1 : apiE.subscribeResult = CUptiResult.success)
    (hE2 : ∃ s ∈ effective_domain_names sbE namesE,
            (lookup_domain s callback_domains).2 ≠ none ∧
            (lookup_domain s callback_domains).1 ≠ CUpti_CallbackDomain.INVALID ∧
            apiE.enableDomainResult (lookup_domain s callback_domains).1 ≠
              CUptiResult.success) :
    cuptiservice_initialize api cfg =
      (if 0 < cfg.sample_event_id then [Action.samplingSetup cfg.sample_event_id] else []) ++
      (register_callback_domains api (sampling_is_enabled cfg.sample_event_id)
        (to_stringlist cfg.callback_domains [',', ':'])).2 ∧
    noConnect ( cuptiservice_initialize api cfg) = true ∧
    hasCuptiErrorLog ( cuptiservice_initialize api cfg) = true ∧
    register_callback_domains apiS sbS namesS =
      (false,
        [Action.cuptiSubscribe,
         Action.logCuptiError "cuptiSubscribe" (apiS.getResultString (CUptiResult.error m))]) ∧
    (register_callback_domains apiE sbE namesE).1 = false := by
  have hinit : cuptiservice_initialize api cfg =
      (if 0 < cfg.sample_event_id then [Action.samplingSetup cfg.sample_event_id] else []) ++
      (register_callback_domains api (sampling_is_enabled cfg.sample_event_id)
        (to_stringlist cfg.callback_domains [',', ':'])).2 := by
    simp [ cuptiservice_initialize, h]
  refine ⟨hinit, ?_, ?_, ?_, ?_⟩
  · rw [hinit]
    by_cases hid : 0 < cfg.sample_event_id <;>
      simp [hid, noConnect, noConnect_append, isConnectAction, register_no_connect]
  · rw [hinit]
    by_cases hid : 0 < cfg.sample_event_id <;>
      simp [hid, hasCuptiErrorLog, hasCuptiErrorLog_append, isLogCuptiError,
            register_false_logs api (sampling_is_enabled cfg.sample_event_id)
              (to_stringlist cfg.callback_domains [',', ':']) h]
  · simp [register_callback_domains, hS]
  · simp only [register_callback_domains, hE1]
    exact enable_fail_loop_false apiE _ hE2

/-- Claim C8, witness: initialization on an API whose subscribe fails, and
registration failure on an API whose domain enables fail, at concrete
configuration values. -/
theorem c8_witness :
    cuptiservice_initialize failSubApi
      { callback_domains := "runtime", record_symbol := true, record_context := true,
        sample_event_id := 0 } =
      (if 0 < (0 : Nat) then [Action.samplingSetup 0] else []) ++
      (register_callback_domains failSubApi (sampling_is_enabled 0)
        (to_stringlist "runtime" [',', ':'])).2 ∧
    noConnect ( cuptiservice_initialize failSubApi
      { callback_domains := "runtime", record_symbol := true, record_context := true,
        sample_event_id := 0 }) = true ∧
    hasCuptiErrorLog ( cuptiservice_initialize failSubApi
      { callback_domains := "runtime", record_symbol := true, record_context := true,
        sample_event_id := 0 }) = true ∧
    register_callback_domains failSubApi false ["runtime"] =
      (false,
        [Action.cuptiSubscribe,
         Action.logCuptiError "cuptiSubscribe"
           (failSubApi.getResultString (CUptiResult.error 1))]) ∧
    (register_callback_domains enableFailApi false ["runtime"]).1 = false :=
  c8_startup_failure failSubApi failSubApi enableFailApi
    { callback_domains := "runtime", record_symbol := true, record_context := true,
      sample_event_id := 0 }
    1 false false ["runtime"] ["runtime"] (by decide) rfl rfl (by decide)

end Cupti
